import Mathlib

/-!
Verification of the RRB NTPC exam-preparation Streamlit app (`src/main.py`)
against its natural-language specification.

The application is a single-script Streamlit program.  We shallowly embed the
pieces of it that the specification talks about:

* the PDF page-text extraction loop of the Upload view (main.py lines 104-109),
* the `text.strip()` branch of the Upload view (lines 111-135) together with
  the `temp.pdf` lifecycle (lines 99-142),
* the `@st.cache_resource` memoisation of `load_pipelines` (lines 58-64),
* the Generate Practice Questions view (lines 145-176),
* the Chat view and its `chat_history` session state (lines 179-222),
* the Settings view (lines 26-55).

Python strings are Lean `String`s; Python exceptions are `Except`; the two
Hugging Face pipelines are opaque function parameters (`qa`, `gen`) returning
`Except`, so that a raising invocation is representable.  Streamlit
`st.session_state` is an explicit `SessionState` record threaded through the
view handlers; a view that never writes `st.session_state` returns its input
state unchanged.
-/

set_option autoImplicit false

namespace ExamPrep

/-! ## Python `str.strip()` truthiness

`if text.strip():` (main.py line 111) takes the then-branch iff the string
stripped of leading and trailing whitespace is non-empty. -/

/-- The characters stripped by Python `str.strip()`: exactly those for which
`str.isspace()` holds, i.e. the Unicode whitespace set of CPython —
U+0009-U+000D, U+001C-U+001F, U+0020, U+0085 (NEL), U+00A0 (no-break
space), U+1680, U+2000-U+200A, U+2028, U+2029, U+202F, U+205F and
U+3000. -/
def isPySpace (c : Char) : Bool :=
  decide ((0x09 ≤ c.toNat ∧ c.toNat ≤ 0x0d) ∨ c.toNat = 0x20 ∨
    (0x1c ≤ c.toNat ∧ c.toNat ≤ 0x1f) ∨ c.toNat = 0x85 ∨ c.toNat = 0xa0 ∨
    c.toNat = 0x1680 ∨ (0x2000 ≤ c.toNat ∧ c.toNat ≤ 0x200a) ∨
    c.toNat = 0x2028 ∨ c.toNat = 0x2029 ∨ c.toNat = 0x202f ∨
    c.toNat = 0x205f ∨ c.toNat = 0x3000)

/-- Python `str.strip()` on the character list of a string: drop leading and
trailing whitespace. -/
def pyStrip (l : List Char) : List Char :=
  ((l.dropWhile isPySpace).reverse.dropWhile isPySpace).reverse

/-! ## PDF page-text extraction loop (main.py lines 105-109)

```
text = ""
for page in pdf_reader.pages:
    extracted = page.extract_text()
    if extracted:
        text += extracted + "\n"
```

A page is a `String` returned by `page.extract_text()`; a non-extractable page
yields `""`, which is falsy in Python, so the page is skipped. -/

/-- The extraction loop: fold the pages, appending each truthy (non-empty)
page text followed by a newline. -/
def extract_page_loop (pages : List String) : String :=
  pages.foldl (fun text extracted =>
    if extracted ≠ "" then text ++ extracted ++ "\n" else text) ""

/-- Modelled from the spec (amended reading): every kept page text is emitted
in page order, each followed by exactly one newline.  Used as the
specification side of the refinement theorem for the extraction loop. -/
def pagesEachFollowedByNewline : List String → String
  | [] => ""
  | t :: ts => t ++ "\n" ++ pagesEachFollowedByNewline ts

/-! ## Upload Question Paper view (main.py lines 97-142)

```
try:
    with open("temp.pdf", "wb") as f: ...          # temp.pdf now exists
    pdf_reader = PyPDF2.PdfReader("temp.pdf")      # may raise
    text = ""  ... extraction loop ...
    if text.strip():
        ... question input, qa_pipeline, explanation generator ...  # may raise
    else:
        st.warning("No text extracted from PDF. ...")
    if os.path.exists("temp.pdf"):                  # cleanup: inside try,
        os.remove("temp.pdf")                       # skipped when an exception
except Exception as e:                              # jumped to the handler
    st.error(f"Error processing PDF: {e}")
```

`parse` is the outcome of `PyPDF2.PdfReader`: the list of page texts, or an
exception message.  `qa` and `gen` are the two pipeline handles; either may
raise.  `question` is the text-input value (`""` when the user has typed
nothing) and `explainClicked` the state of the explain button.
`tempExists` records whether `temp.pdf` is still on disk when the interaction
finishes. -/

inductive UploadOutcome where
  | errorShown (msg : String)
  | warningShown
  | promptShown (text : String) (answer : Option String) (explanation : Option String)
deriving DecidableEq, Repr

structure UploadResult where
  tempExists : Bool
  outcome : UploadOutcome
deriving DecidableEq, Repr

def uploadView (parse : Except String (List String)) (question : String)
    (qa : String → String → Except String String)
    (explainClicked : Bool)
    (gen : String → Except String String) : UploadResult :=
  match parse with
  | .error e => { tempExists := true, outcome := .errorShown ("Error processing PDF: " ++ e) }
  | .ok pages =>
    let text := extract_page_loop pages
    if pyStrip text.data ≠ [] then
      if question ≠ "" then
        match qa question text with
        | .error e => { tempExists := true, outcome := .errorShown ("Error processing PDF: " ++ e) }
        | .ok answer =>
          if explainClicked then
            match gen ("Explain how to solve this question: " ++ question ++ " Answer: " ++ answer) with
            | .error e => { tempExists := true, outcome := .errorShown ("Error processing PDF: " ++ e) }
            | .ok expl =>
              { tempExists := false, outcome := .promptShown text (some answer) (some expl) }
          else { tempExists := false, outcome := .promptShown text (some answer) none }
      else { tempExists := false, outcome := .promptShown text none none }
    else { tempExists := false, outcome := .warningShown }

/-! ## Model catalogs and session state (main.py lines 7-22) -/

/-- `QA_MODELS` (main.py lines 7-11): display name to model identifier. -/
def QA_MODELS : List (String × String) :=
  [("DistilBERT (distilbert-base-uncased-distilled-squad)",
    "distilbert-base-uncased-distilled-squad"),
   ("RoBERTa (deepset/roberta-base-squad2)", "deepset/roberta-base-squad2"),
   ("BERT Large (bert-large-uncased-whole-word-masking-finetuned-squad)",
    "bert-large-uncased-whole-word-masking-finetuned-squad")]

/-- `GEN_MODELS` (main.py lines 12-16). -/
def GEN_MODELS : List (String × String) :=
  [("GPT-2 (gpt2)", "gpt2"),
   ("Falcon 7B Instruct (tiiuae/falcon-7b-instruct)", "tiiuae/falcon-7b-instruct"),
   ("FLAN-T5 Base (google/flan-t5-base)", "google/flan-t5-base")]

/-- One chat turn, `{"question": ..., "answer": ...}` (main.py line 205). -/
structure ChatTurn where
  question : String
  answer : String
deriving DecidableEq, Repr

/-- `st.session_state`: the two selected model identifiers and the chat
history.  `chat_history` is `none` while the key is absent (before the Chat
view first runs, main.py lines 183-184). -/
structure SessionState where
  qa_model : String
  gen_model : String
  chat_history : Option (List ChatTurn)
deriving DecidableEq, Repr

/-- Association-list lookup, the Python `dict[key]` access. -/
def findValue : List (String × String) → String → Option String
  | [], _ => none
  | (k, v) :: rest, key => if k = key then some v else findValue rest key

/-! ## Settings view (main.py lines 26-55)

The Settings view reads the selected display names and writes only
`st.session_state.qa_model` and `st.session_state.gen_model`
(lines 46-47); a missing dictionary key raises `KeyError`. -/

def settingsView (s : SessionState) (qa_selected gen_selected : String) :
    Except String SessionState :=
  match findValue QA_MODELS qa_selected, findValue GEN_MODELS gen_selected with
  | some qa, some g => .ok { s with qa_model := qa, gen_model := g }
  | _, _ => .error "KeyError"

/-! ## `load_pipelines` under `@st.cache_resource` (main.py lines 58-64)

`st.cache_resource` memoises the decorated function per argument tuple for
the process lifetime: on a cache hit the decorated body does not run and the
cached object itself is returned.  We embed that contract as explicit state:
a cache mapping `(qa_model_name, gen_model_name)` to the constructed handle
pair, and a counter of how many times the expensive body executed.  Handles
carry allocation indices, so `Pipelines` equality in the model is referential
identity of the returned objects. -/

/-- A `(qa, gen)` pipeline handle pair; the fields are allocation indices
identifying the underlying objects. -/
structure Pipelines where
  qa : Nat
  gen : Nat
deriving DecidableEq, Repr

structure CacheState where
  cache : List ((String × String) × Pipelines)
  loadCount : Nat
deriving DecidableEq, Repr

def findCached : List ((String × String) × Pipelines) → (String × String) → Option Pipelines
  | [], _ => none
  | (k, v) :: rest, key => if k = key then some v else findCached rest key

/-- `load_pipelines(qa_model_name, gen_model_name)` through the
`st.cache_resource` decorator: return the cached pair on a hit; on a miss run
the body (allocate two fresh pipeline objects, count one execution) and cache
the result. -/
def load_pipelines (key : String × String) (s : CacheState) : Pipelines × CacheState :=
  match findCached s.cache key with
  | some h => (h, s)
  | none =>
    let h : Pipelines := ⟨s.loadCount * 2, s.loadCount * 2 + 1⟩
    (h, { cache := (key, h) :: s.cache, loadCount := s.loadCount + 1 })

/-- A sequence of `load_pipelines` calls in one process. -/
def runCalls : List (String × String) → CacheState → CacheState
  | [], s => s
  | k :: ks, s => runCalls ks (load_pipelines k s).2

/-- The fresh process: empty cache, no executions yet. -/
def initCache : CacheState := { cache := [], loadCount := 0 }

/-- The identifier pairs present in the cache. -/
def cachedKeys (s : CacheState) : Finset (String × String) :=
  (s.cache.map Prod.fst).toFinset

/-! ## Generate Practice Questions view (main.py lines 145-176)

```
subject = st.selectbox("Select Subject", ["Mathematics", "General Intelligence & Reasoning", "General Awareness"])
topic = st.text_input(...)
num_questions = st.slider("Number of Questions", 1, 10, 5)
if st.button("Generate Questions"):
    if topic:
        prompt = f"Generate {num_questions} RRB NTPC {subject} practice questions on {topic} with answers."
        questions = generator(prompt, ...)[0]['generated_text']
        st.markdown(questions)
        st.download_button(..., data=questions,
            file_name=f"rrb_ntpc_{subject}_questions.txt", mime="text/plain")
    else:
        st.warning("Please enter a topic to generate questions.")
```

The view never writes `st.session_state`, so the handler returns the session
state it was given.  `gen` returns the `generated_text` of the single
returned sequence, or raises. -/

/-- The subject selectbox options (main.py line 147). -/
def gen_subjects : List String :=
  ["Mathematics", "General Intelligence & Reasoning", "General Awareness"]

/-- The question-count slider bounds and default,
`st.slider("Number of Questions", 1, 10, 5)` (main.py line 149). -/
def num_questions_min : Nat := 1

def num_questions_max : Nat := 10

def num_questions_default : Nat := 5

/-- The generation prompt (main.py line 154). -/
def gen_prompt (num_questions : Nat) (subject topic : String) : String :=
  "Generate " ++ toString num_questions ++ " RRB NTPC " ++ subject ++
    " practice questions on " ++ topic ++ " with answers."

/-- A download button offer: `(data, file_name, mime)` (main.py lines 169-174). -/
structure Download where
  data : String
  file_name : String
  mime : String
deriving DecidableEq, Repr

structure GenOutput where
  warned : Bool
  shown : Option String
  download : Option Download
  genCalls : Nat
deriving DecidableEq, Repr

def generateView (gen : String → Except String String) (s : SessionState)
    (subject topic : String) (num_questions : Nat) :
    SessionState × Except String GenOutput :=
  if topic ≠ "" then
    match gen (gen_prompt num_questions subject topic) with
    | .error e => (s, .error e)
    | .ok questions =>
      (s, .ok { warned := false, shown := some questions,
                download := some { data := questions,
                                   file_name := "rrb_ntpc_" ++ subject ++ "_questions.txt",
                                   mime := "text/plain" },
                genCalls := 1 })
  else
    (s, .ok { warned := true, shown := none, download := none, genCalls := 0 })

/-! ## Chat with AI view (main.py lines 179-222)

The view first materialises `chat_history` (lines 183-184), renders the
stored turns (lines 187-189), and if the text input is truthy calls the QA
pipeline against the fixed context (lines 195-202), appends the turn
(line 205), and on the explain button invokes the generator (lines 212-222).
Exceptions from either pipeline escape the handler (there is no try/except in
this view); session-state mutations made before the raise persist, so the
handler returns the state as mutated so far alongside the `Except`. -/

/-- The fixed chat context string (main.py lines 195-199). -/
def chatContext : String :=
  "RRB NTPC exam preparation context: Covers Mathematics (LCM, Percentages, etc.), " ++
    "General Intelligence & Reasoning (Coding-Decoding, Puzzles), " ++
    "General Awareness (Indian Railways, Current Affairs, History, Geography). Provide accurate answers."

structure ChatOutput where
  renderedHistory : List ChatTurn
  latest : Option ChatTurn
  explanation : Option String
deriving DecidableEq, Repr

def chatView (qa : String → String → Except String String)
    (gen : String → Except String String) (explainClicked : Bool)
    (s : SessionState) (user_question : String) :
    SessionState × Except String ChatOutput :=
  let history := s.chat_history.getD []
  let s1 := { s with chat_history := some history }
  if user_question ≠ "" then
    match qa user_question chatContext with
    | .error e => (s1, .error e)
    | .ok answer =>
      let s2 := { s1 with chat_history := some (history ++ [⟨user_question, answer⟩]) }
      if explainClicked then
        match gen ("Explain in detail: " ++ user_question ++ " Answer: " ++ answer) with
        | .error e => (s2, .error e)
        | .ok expl => (s2, .ok ⟨history, some ⟨user_question, answer⟩, some expl⟩)
      else (s2, .ok ⟨history, some ⟨user_question, answer⟩, none⟩)
  else (s1, .ok ⟨history, none, none⟩)

/-! ## The hosting framework boundary -/

/-- What one user interaction ends as: the framework either keeps the session
alive (rendering the view output or an error message) or the hosting process
terminates. -/
inductive ProcOutcome (α : Type) where
  | continued (s : SessionState) (rendered : Option α) (errorShown : Option String)
  | terminated
deriving DecidableEq, Repr

/-- Modelled from the spec: the hosting framework (the Streamlit script
runner, outside `src/`) catches any exception escaping the script, displays
it as an in-page error message, and keeps the session alive with the session
state as mutated so far; no exception terminates the hosting process. -/
def runInteraction {α : Type} (r : SessionState × Except String α) : ProcOutcome α :=
  match r with
  | (s, .ok a) => .continued s (some a) none
  | (s, .error e) => .continued s none (some e)

/-! ## Helper lemmas -/

theorem dropWhile_forall_iff (p : Char → Bool) (l : List Char) :
    (∀ c ∈ l.dropWhile p, p c) ↔ ∀ c ∈ l, p c := by
  constructor
  · intro h c hc
    rw [← List.takeWhile_append_dropWhile p l] at hc
    rcases List.mem_append.mp hc with h1 | h2
    · exact List.mem_takeWhile_imp h1
    · exact h c h2
  · intro h c hc
    refine h c ?_
    rw [← List.takeWhile_append_dropWhile p l]
    exact List.mem_append.mpr (Or.inr hc)

theorem pyStrip_eq_nil_iff (l : List Char) :
    pyStrip l = [] ↔ ∀ c ∈ l, isPySpace c := by
  unfold pyStrip
  rw [List.reverse_eq_nil_iff, List.dropWhile_eq_nil_iff]
  simp only [List.mem_reverse]
  exact dropWhile_forall_iff isPySpace l

theorem extract_loop_acc (pages : List String) (acc : String) :
    pages.foldl (fun text extracted =>
        if extracted ≠ "" then text ++ extracted ++ "\n" else text) acc =
      acc ++ pagesEachFollowedByNewline (pages.filter (fun p => p ≠ "")) := by
  induction pages generalizing acc with
  | nil => simp [pagesEachFollowedByNewline, String.append_empty]
  | cons p ps ih =>
    by_cases hp : p = ""
    · subst hp
      simp only [List.foldl, List.filter_cons]
      simpa using ih acc
    · rw [List.foldl_cons, if_pos hp, List.filter_cons, if_pos (by simpa using hp)]
      rw [ih (acc ++ p ++ "\n")]
      simp [pagesEachFollowedByNewline, String.append_assoc]

theorem extract_page_loop_eq (pages : List String) :
    extract_page_loop pages =
      pagesEachFollowedByNewline (pages.filter (fun p => p ≠ "")) := by
  have h := extract_loop_acc pages ""
  rwa [String.empty_append] at h

theorem settings_preserves_history (s t : SessionState) (qaSel genSel : String)
    (h : settingsView s qaSel genSel = Except.ok t) :
    t.chat_history = s.chat_history := by
  unfold settingsView at h
  cases h1 : findValue QA_MODELS qaSel <;> cases h2 : findValue GEN_MODELS genSel <;>
    simp [h1, h2] at h <;> simp [← h]

theorem findCached_eq_none_iff (c : List ((String × String) × Pipelines))
    (key : String × String) :
    findCached c key = none ↔ key ∉ c.map Prod.fst := by
  induction c with
  | nil => simp [findCached]
  | cons kv rest ih =>
    obtain ⟨k, v⟩ := kv
    by_cases h : k = key
    · subst h
      simp [findCached]
    · simp [findCached, h, ih, Ne.symm h]

theorem load_pipelines_hit (key : String × String) (s : CacheState)
    (h : key ∈ cachedKeys s) : (load_pipelines key s).2 = s := by
  unfold load_pipelines
  cases hfind : findCached s.cache key with
  | some p => rfl
  | none =>
    exfalso
    have := (findCached_eq_none_iff s.cache key).mp hfind
    exact this (by simpa [cachedKeys, List.mem_toFinset] using h)

theorem runCalls_keys_and_count (ks : List (String × String)) :
    ∀ s : CacheState,
      cachedKeys (runCalls ks s) = cachedKeys s ∪ ks.toFinset ∧
      (runCalls ks s).loadCount = s.loadCount + (ks.toFinset \ cachedKeys s).card := by
  induction ks with
  | nil =>
    intro s
    simp [runCalls]
  | cons k ks ih =>
    intro s
    by_cases hk : k ∈ cachedKeys s
    · have hload : (load_pipelines k s).2 = s := load_pipelines_hit k s hk
      have hstep : runCalls (k :: ks) s = runCalls ks s := by
        rw [runCalls, hload]
      obtain ⟨ihA, ihB⟩ := ih s
      refine ⟨?_, ?_⟩
      · rw [hstep, ihA, List.toFinset_cons, Finset.union_insert,
          Finset.insert_eq_self.mpr (Finset.mem_union_left _ hk)]
      · rw [hstep, ihB, List.toFinset_cons, Finset.insert_sdiff_of_mem _ hk]
    · have hfind : findCached s.cache k = none := by
        rw [findCached_eq_none_iff]
        intro hmem
        exact hk (by simpa [cachedKeys, List.mem_toFinset] using hmem)
      have hs2 : (load_pipelines k s).2 =
          { cache := (k, ⟨s.loadCount * 2, s.loadCount * 2 + 1⟩) :: s.cache,
            loadCount := s.loadCount + 1 } := by
        simp [load_pipelines, hfind]
      have hkeys2 : cachedKeys (load_pipelines k s).2 = insert k (cachedKeys s) := by
        rw [hs2]
        simp [cachedKeys]
      have hcount2 : ((load_pipelines k s).2).loadCount = s.loadCount + 1 := by
        rw [hs2]
      obtain ⟨ihA, ihB⟩ := ih (load_pipelines k s).2
      have hstep : runCalls (k :: ks) s = runCalls ks (load_pipelines k s).2 := rfl
      refine ⟨?_, ?_⟩
      · rw [hstep, ihA, hkeys2, List.toFinset_cons, Finset.insert_union,
          Finset.union_insert]
      · rw [hstep, ihB, hkeys2, hcount2, List.toFinset_cons]
        have hset : insert k ks.toFinset \ cachedKeys s =
            insert k (ks.toFinset \ insert k (cachedKeys s)) := by
          ext x
          by_cases hx : x = k
          · subst hx
            simp [hk]
          · simp [hx, Finset.mem_sdiff, Finset.mem_insert]
        rw [hset, Finset.card_insert_of_not_mem (by simp)]
        omega

/-! ## Claim theorems -/

/-- Claim C3, counterexample: the extraction loop appends a newline after
every kept page, so a single-page document with page text `"a"` extracts to
`"a\n"`, not to the bare concatenation `"a"` that the claim (separators only
between consecutive kept pages, no other characters added) would require. -/
theorem extraction_trailing_newline_counterexample :
    extract_page_loop ["a"] = "a\n" ∧ extract_page_loop ["a"] ≠ "a" := by
  exact ⟨rfl, by decide⟩

/-- Claim C3 (amended): the extraction loop returns the extractable
(non-empty) page texts in page order, each followed by exactly one newline —
equivalently, consecutive kept pages are separated by a single newline and a
single trailing newline ends the result; non-extractable pages are skipped
and no other characters are added. -/
theorem extraction_keeps_pages_in_order_newline_terminated (pages : List String) :
    extract_page_loop pages =
      pagesEachFollowedByNewline (pages.filter (fun p => p ≠ "")) :=
  extract_page_loop_eq pages

/-- Claim C5: when every page of the uploaded document is non-extractable,
the extraction loop returns the empty string (it never raises and never
returns a null), and the Upload view takes the
"No text extracted from PDF" warning branch instead of the question-input
prompt, with the temporary file removed. -/
theorem all_pages_nonextractable_warning (pages : List String) (question : String)
    (qa : String → String → Except String String) (explainClicked : Bool)
    (gen : String → Except String String)
    (h : ∀ p ∈ pages, p = "") :
    extract_page_loop pages = "" ∧
      uploadView (.ok pages) question qa explainClicked gen =
        { tempExists := false, outcome := .warningShown } := by
  have hfilter : pages.filter (fun p => p ≠ "") = [] := by
    simp only [List.filter_eq_nil_iff]
    intro a ha
    simpa using h a ha
  have hext : extract_page_loop pages = "" := by
    rw [extract_page_loop_eq, hfilter]
    rfl
  refine ⟨hext, ?_⟩
  simp only [uploadView, hext]
  have hstrip : pyStrip ("" : String).data = [] := rfl
  simp [hstrip]

/-- Claim C5 witness at a concrete two-page all-blank document. -/
theorem all_pages_nonextractable_warning_witness :
    extract_page_loop ["", ""] = "" ∧
      uploadView (.ok ["", ""]) "q" (fun _ _ => .ok "a") false (fun _ => .ok "e") =
        { tempExists := false, outcome := .warningShown } :=
  all_pages_nonextractable_warning ["", ""] "q" (fun _ _ => .ok "a") false
    (fun _ => .ok "e") (by decide)

/-- Claim C9: at the moment the Upload view decides between prompt and
warning (no question typed yet), the question-input prompt is rendered iff
the concatenated extracted text contains at least one non-whitespace
character, and the warning is rendered iff every character is whitespace —
so whitespace-only extraction output takes the warning path exactly as the
empty string does. -/
theorem upload_prompt_iff_nonwhitespace (pages : List String)
    (qa : String → String → Except String String) (explainClicked : Bool)
    (gen : String → Except String String) :
    ((uploadView (.ok pages) "" qa explainClicked gen).outcome =
        .promptShown (extract_page_loop pages) none none ↔
      ∃ c ∈ (extract_page_loop pages).data, isPySpace c = false) ∧
    ((uploadView (.ok pages) "" qa explainClicked gen).outcome = .warningShown ↔
      ∀ c ∈ (extract_page_loop pages).data, isPySpace c) := by
  have hiff : pyStrip (extract_page_loop pages).data ≠ [] ↔
      ∃ c ∈ (extract_page_loop pages).data, isPySpace c = false := by
    rw [Ne, pyStrip_eq_nil_iff]
    push_neg
    simp [Bool.not_eq_true]
  by_cases hc : pyStrip (extract_page_loop pages).data = []
  · have hnex : ¬ ∃ c ∈ (extract_page_loop pages).data, isPySpace c = false := by
      rw [← hiff]
      simpa using hc
    have hall := (pyStrip_eq_nil_iff _).mp hc
    constructor
    · simp [uploadView, hc, hnex]
    · simp [uploadView, hc]
      exact hall
  · have hex := hiff.mp hc
    have hnall : ¬ ∀ c ∈ (extract_page_loop pages).data, isPySpace c := by
      rw [← pyStrip_eq_nil_iff]
      exact hc
    constructor
    · simp [uploadView, hc, hex]
    · simp [uploadView, hc, hnall]

/-- Claim C10: clicking the generate button with an empty topic performs no
generation-handle invocation (the result is the same for every handle and
records zero calls), offers no download, shows no questions, leaves the
session state unchanged, and shows only the warning. -/
theorem generate_empty_topic_only_warns (gen : String → Except String String)
    (s : SessionState) (subject : String) (num_questions : Nat) :
    generateView gen s subject "" num_questions =
      (s, .ok { warned := true, shown := none, download := none, genCalls := 0 }) := by
  simp [generateView]

/-- Claim C7, counterexample: the subject selectbox options of the Generate
view do not contain the value `"Reasoning"` claimed by the spec — the middle
option is `"General Intelligence & Reasoning"`. -/
theorem gen_subjects_counterexample :
    "Reasoning" ∉ gen_subjects ∧
      gen_subjects ≠ ["Mathematics", "Reasoning", "General Awareness"] ∧
      "General Intelligence & Reasoning" ∈ gen_subjects := by
  refine ⟨by decide, by decide, by decide⟩

/-- Claim C7 (amended): the Generate view subject options are exactly
Mathematics, General Intelligence & Reasoning, and General Awareness; the
question-count slider is an integer input over [1, 10] (default 5); and a
successful generation offers a download named
`rrb_ntpc_<subject>_questions.txt` with MIME type `text/plain` — in
particular `rrb_ntpc_Mathematics_questions.txt` for Mathematics. -/
theorem generate_inputs_and_download (gen : String → Except String String)
    (s : SessionState) (subject topic : String) (num_questions : Nat)
    (questions : String)
    (htopic : topic ≠ "")
    (hgen : gen (gen_prompt num_questions subject topic) = Except.ok questions) :
    gen_subjects = ["Mathematics", "General Intelligence & Reasoning", "General Awareness"] ∧
    num_questions_min = 1 ∧ num_questions_max = 10 ∧
    num_questions_min ≤ num_questions_default ∧
    num_questions_default ≤ num_questions_max ∧
    generateView gen s subject topic num_questions =
      (s, .ok { warned := false, shown := some questions,
                download := some { data := questions,
                                   file_name := "rrb_ntpc_" ++ subject ++ "_questions.txt",
                                   mime := "text/plain" },
                genCalls := 1 }) ∧
    "rrb_ntpc_" ++ "Mathematics" ++ "_questions.txt" = "rrb_ntpc_Mathematics_questions.txt" := by
  refine ⟨rfl, rfl, rfl, by decide, by decide, ?_, by decide⟩
  simp [generateView, htopic, hgen]

/-- Claim C7 witness: a concrete successful generation for Mathematics /
Percentages with five questions. -/
theorem generate_inputs_and_download_witness :
    gen_subjects = ["Mathematics", "General Intelligence & Reasoning", "General Awareness"] ∧
    num_questions_min = 1 ∧ num_questions_max = 10 ∧
    num_questions_min ≤ num_questions_default ∧
    num_questions_default ≤ num_questions_max ∧
    generateView (fun _ => Except.ok "sample questions") ⟨"m", "g", none⟩
        "Mathematics" "Percentages" 5 =
      (⟨"m", "g", none⟩,
        .ok ⟨false, some "sample questions",
          some ⟨"sample questions",
            "rrb_ntpc_" ++ "Mathematics" ++ "_questions.txt", "text/plain"⟩, 1⟩) ∧
    "rrb_ntpc_" ++ "Mathematics" ++ "_questions.txt" = "rrb_ntpc_Mathematics_questions.txt" :=
  generate_inputs_and_download (fun _ => Except.ok "sample questions") ⟨"m", "g", none⟩
    "Mathematics" "Percentages" 5 "sample questions" (by decide) rfl

/-- Claim C8, counterexample: with a generation model that echoes the prompt
verbatim at the start of its output, the Generate view shows and downloads
the full `generated_text` — the echoed prompt included — rather than only
the continuation, so no prompt-stripping takes place. -/
theorem generated_text_keeps_echoed_prompt :
    ((generateView (fun p => Except.ok (p ++ " Q1")) ⟨"m", "g", none⟩
        "Mathematics" "Percentages" 5).2 =
      Except.ok { warned := false,
                  shown := some (gen_prompt 5 "Mathematics" "Percentages" ++ " Q1"),
                  download := some { data := gen_prompt 5 "Mathematics" "Percentages" ++ " Q1",
                                     file_name := "rrb_ntpc_Mathematics_questions.txt",
                                     mime := "text/plain" },
                  genCalls := 1 }) ∧
    gen_prompt 5 "Mathematics" "Percentages" ++ " Q1" ≠ " Q1" := by
  refine ⟨rfl, by decide⟩

/-- Claim C8 (amended): the result shown and offered for download is the raw
`generated_text` of the single returned sequence, with no prompt-stripping —
both for question generation in the Generate view and for the explanation in
the Upload view; when the model echoes the prompt, the echo is part of the
displayed text. -/
theorem generated_text_shown_raw (gen : String → Except String String)
    (s : SessionState) (subject topic : String) (num_questions : Nat)
    (questions : String) (pages : List String) (question answer expl : String)
    (qa : String → String → Except String String)
    (htopic : topic ≠ "")
    (hgen : gen (gen_prompt num_questions subject topic) = Except.ok questions)
    (hpages : pyStrip (extract_page_loop pages).data ≠ [])
    (hq : question ≠ "")
    (hqa : qa question (extract_page_loop pages) = Except.ok answer)
    (hexpl : gen ("Explain how to solve this question: " ++ question ++
        " Answer: " ++ answer) = Except.ok expl) :
    (generateView gen s subject topic num_questions).2 =
      Except.ok { warned := false, shown := some questions,
                  download := some { data := questions,
                                     file_name := "rrb_ntpc_" ++ subject ++ "_questions.txt",
                                     mime := "text/plain" },
                  genCalls := 1 } ∧
    (uploadView (.ok pages) question qa true gen).outcome =
      .promptShown (extract_page_loop pages) (some answer) (some expl) := by
  constructor
  · simp [generateView, htopic, hgen]
  · simp [uploadView, hpages, hq, hqa, hexpl]

/-- Claim C8 amended-theorem witness at a concrete model that returns a fixed
string. -/
theorem generated_text_shown_raw_witness :
    (generateView (fun _ => Except.ok "raw output") ⟨"m", "g", none⟩
        "Mathematics" "Percentages" 5).2 =
      Except.ok { warned := false, shown := some "raw output",
                  download := some { data := "raw output",
                                     file_name := "rrb_ntpc_" ++ "Mathematics" ++ "_questions.txt",
                                     mime := "text/plain" },
                  genCalls := 1 } ∧
    (uploadView (.ok ["body"]) "Q" (fun _ _ => Except.ok "7") true
        (fun _ => Except.ok "raw output")).outcome =
      .promptShown (extract_page_loop ["body"]) (some "7") (some "raw output") :=
  generated_text_shown_raw (fun _ => Except.ok "raw output") ⟨"m", "g", none⟩
    "Mathematics" "Percentages" 5 "raw output" ["body"] "Q" "7" "raw output"
    (fun _ _ => Except.ok "7") (by decide) rfl (by decide) (by decide) rfl rfl

/-- Claim C1: evaluation of the Upload view at a failing input.  When
`PyPDF2.PdfReader` raises (the uploaded bytes are not a valid PDF), the
interaction ends in the except-branch with `temp.pdf` still on disk, because
the `os.remove` cleanup sits inside the `try` block and is skipped on the
exception path; on the non-raising path the file is removed. -/
theorem upload_parse_error_leaves_temp_file :
    (uploadView (.error "invalid pdf header") "" (fun _ _ => .ok "") false
        (fun _ => .ok "")).tempExists = true ∧
    (uploadView (.error "invalid pdf header") "" (fun _ _ => .ok "") false
        (fun _ => .ok "")).outcome =
      .errorShown ("Error processing PDF: " ++ "invalid pdf header") ∧
    (uploadView (.ok ["Q1. Sample question"]) "" (fun _ _ => .ok "") false
        (fun _ => .ok "")).tempExists = false := by
  refine ⟨rfl, rfl, by decide⟩

/-- Claim C2: `load_pipelines` under `st.cache_resource` is memoized per
`(qa_model_name, gen_model_name)` pair — a repeated call with the same pair
is a complete no-op returning the very same handle pair (referential
identity, since handles carry allocation indices), and over any sequence of
calls in one process the expensive loading body executes exactly once per
distinct pair (hence at most once per unique pair). -/
theorem load_pipelines_memoized (key : String × String) (s : CacheState)
    (ks : List (String × String)) :
    load_pipelines key (load_pipelines key s).2 = load_pipelines key s ∧
    (runCalls ks initCache).loadCount = ks.toFinset.card := by
  constructor
  · cases hfind : findCached s.cache key with
    | some h =>
      simp [load_pipelines, hfind]
    | none =>
      have h2 : (load_pipelines key s).2 =
          { cache := (key, ⟨s.loadCount * 2, s.loadCount * 2 + 1⟩) :: s.cache,
            loadCount := s.loadCount + 1 } := by
        simp [load_pipelines, hfind]
      rw [h2]
      simp [load_pipelines, findCached, hfind]
  · have h := (runCalls_keys_and_count ks initCache).2
    simpa [initCache, cachedKeys] using h

/-- Claim C4: a raising invocation of the generation handle surfaces as a
recoverable per-request failure.  In the Generate view the exception escapes
the handler and the framework boundary shows it with the session state
untouched; in the Chat view likewise, with the already-appended turn kept; in
the Upload view the in-view handler shows it as the error message; in no
case is the outcome process termination. -/
theorem inference_error_recoverable (s : SessionState)
    (gen : String → Except String String)
    (qa qa2 : String → String → Except String String)
    (subject topic user_question : String) (num_questions : Nat)
    (answer answer2 e e2 e3 : String) (pages : List String) (question : String)
    (htopic : topic ≠ "")
    (hgen : gen (gen_prompt num_questions subject topic) = Except.error e)
    (huq : user_question ≠ "")
    (hqa : qa user_question chatContext = Except.ok answer)
    (hgen2 : gen ("Explain in detail: " ++ user_question ++ " Answer: " ++ answer) =
      Except.error e2)
    (hpages : pyStrip (extract_page_loop pages).data ≠ [])
    (hq : question ≠ "")
    (hqa2 : qa2 question (extract_page_loop pages) = Except.ok answer2)
    (hgen3 : gen ("Explain how to solve this question: " ++ question ++
      " Answer: " ++ answer2) = Except.error e3) :
    runInteraction (generateView gen s subject topic num_questions) =
      .continued s none (some e) ∧
    runInteraction (generateView gen s subject topic num_questions) ≠
      ProcOutcome.terminated ∧
    runInteraction (chatView qa gen true s user_question) =
      .continued ⟨s.qa_model, s.gen_model, some (s.chat_history.getD [] ++ [⟨user_question, answer⟩])⟩ none (some e2) ∧
    runInteraction (chatView qa gen true s user_question) ≠ ProcOutcome.terminated ∧
    (uploadView (.ok pages) question qa2 true gen).outcome =
      .errorShown ("Error processing PDF: " ++ e3) := by
  have hg : runInteraction (generateView gen s subject topic num_questions) =
      .continued s none (some e) := by
    simp [generateView, htopic, hgen, runInteraction]
  have hch : runInteraction (chatView qa gen true s user_question) =
      .continued ⟨s.qa_model, s.gen_model, some (s.chat_history.getD [] ++ [⟨user_question, answer⟩])⟩ none (some e2) := by
    simp [chatView, huq, hqa, hgen2, runInteraction]
  refine ⟨hg, ?_, hch, ?_, ?_⟩
  · rw [hg]
    simp
  · rw [hch]
    simp
  · simp [uploadView, hpages, hq, hqa2, hgen3]

/-- Claim C4 witness: a generation handle that always raises, in a concrete
session. -/
theorem inference_error_recoverable_witness :
    runInteraction (generateView (fun _ => Except.error "boom") ⟨"m", "g", none⟩
        "Mathematics" "Percentages" 5) =
      .continued ⟨"m", "g", none⟩ none (some "boom") ∧
    runInteraction (generateView (fun _ => Except.error "boom") ⟨"m", "g", none⟩
        "Mathematics" "Percentages" 5) ≠ ProcOutcome.terminated ∧
    runInteraction (chatView (fun _ _ => Except.ok "ans") (fun _ => Except.error "boom")
        true ⟨"m", "g", none⟩ "U") =
      .continued ⟨"m", "g", some [⟨"U", "ans"⟩]⟩ none (some "boom") ∧
    runInteraction (chatView (fun _ _ => Except.ok "ans") (fun _ => Except.error "boom")
        true ⟨"m", "g", none⟩ "U") ≠ ProcOutcome.terminated ∧
    (uploadView (.ok ["body"]) "Q" (fun _ _ => Except.ok "7") true
        (fun _ => Except.error "boom")).outcome =
      .errorShown ("Error processing PDF: " ++ "boom") :=
  inference_error_recoverable ⟨"m", "g", none⟩ (fun _ => Except.error "boom")
    (fun _ _ => Except.ok "ans") (fun _ _ => Except.ok "7")
    "Mathematics" "Percentages" "U" 5 "ans" "7" "boom" "boom" "boom" ["body"] "Q"
    (by decide) rfl (by decide) rfl rfl (by decide) (by decide) rfl rfl

/-- Claim C6: the chat history is append-only in submission order and only
the Chat view writes it.  From a fresh session, two consecutive user
messages leave exactly the two turns in submission order; the Settings view
(which writes only the model selections) leaves the history unchanged, and
revisiting the Chat view afterwards re-renders both turns without clearing
them; the Generate view never touches session state at all. -/
theorem chat_history_append_only
    (qa : String → String → Except String String)
    (gen : String → Except String String)
    (s sAfter : SessionState) (q1 q2 a1 a2 qa_selected gen_selected : String)
    (subject topic : String) (num_questions : Nat)
    (hfresh : s.chat_history = none)
    (hq1 : q1 ≠ "") (hq2 : q2 ≠ "")
    (ha1 : qa q1 chatContext = Except.ok a1)
    (ha2 : qa q2 chatContext = Except.ok a2)
    (hsettings : settingsView (chatView qa gen false (chatView qa gen false s q1).1 q2).1
      qa_selected gen_selected = Except.ok sAfter) :
    (chatView qa gen false (chatView qa gen false s q1).1 q2).1.chat_history =
      some [⟨q1, a1⟩, ⟨q2, a2⟩] ∧
    sAfter.chat_history = some [⟨q1, a1⟩, ⟨q2, a2⟩] ∧
    (chatView qa gen false sAfter "").1 = sAfter ∧
    (chatView qa gen false sAfter "").2 =
      Except.ok ⟨[⟨q1, a1⟩, ⟨q2, a2⟩], none, none⟩ ∧
    (generateView gen sAfter subject topic num_questions).1 = sAfter := by
  have h2 : (chatView qa gen false (chatView qa gen false s q1).1 q2).1.chat_history =
      some [⟨q1, a1⟩, ⟨q2, a2⟩] := by
    simp [chatView, hfresh, hq1, hq2, ha1, ha2]
  have hAfter : sAfter.chat_history = some [⟨q1, a1⟩, ⟨q2, a2⟩] := by
    rw [settings_preserves_history _ _ _ _ hsettings, h2]
  refine ⟨h2, hAfter, ?_, ?_, ?_⟩
  · obtain ⟨qm, gm, ch⟩ := sAfter
    have hch : ch = some [⟨q1, a1⟩, ⟨q2, a2⟩] := hAfter
    subst hch
    simp [chatView]
  · simp [chatView, hAfter]
  · by_cases ht : topic = "" <;> cases hg : gen (gen_prompt num_questions subject topic) <;>
      simp [generateView, ht, hg]

/-- Claim C6 witness: two concrete messages, then a round trip through
Settings. -/
theorem chat_history_append_only_witness :
    (chatView (fun q _ => Except.ok ("A-" ++ q)) (fun _ => Except.ok "")
        false (chatView (fun q _ => Except.ok ("A-" ++ q)) (fun _ => Except.ok "")
          false ⟨"m", "g", none⟩ "x").1 "y").1.chat_history =
      some [⟨"x", "A-x"⟩, ⟨"y", "A-y"⟩] ∧
    ({ qa_model := "deepset/roberta-base-squad2", gen_model := "gpt2",
       chat_history := some [⟨"x", "A-x"⟩, ⟨"y", "A-y"⟩] } :
        SessionState).chat_history = some [⟨"x", "A-x"⟩, ⟨"y", "A-y"⟩] ∧
    (chatView (fun q _ => Except.ok ("A-" ++ q)) (fun _ => Except.ok "") false
        ⟨"deepset/roberta-base-squad2", "gpt2", some [⟨"x", "A-x"⟩, ⟨"y", "A-y"⟩]⟩ "").1 =
      ⟨"deepset/roberta-base-squad2", "gpt2", some [⟨"x", "A-x"⟩, ⟨"y", "A-y"⟩]⟩ ∧
    (chatView (fun q _ => Except.ok ("A-" ++ q)) (fun _ => Except.ok "") false
        ⟨"deepset/roberta-base-squad2", "gpt2", some [⟨"x", "A-x"⟩, ⟨"y", "A-y"⟩]⟩ "").2 =
      Except.ok ⟨[⟨"x", "A-x"⟩, ⟨"y", "A-y"⟩], none, none⟩ ∧
    (generateView (fun _ => Except.ok "") ⟨"deepset/roberta-base-squad2", "gpt2",
        some [⟨"x", "A-x"⟩, ⟨"y", "A-y"⟩]⟩ "Mathematics" "Percentages" 5).1 =
      ⟨"deepset/roberta-base-squad2", "gpt2", some [⟨"x", "A-x"⟩, ⟨"y", "A-y"⟩]⟩ :=
  chat_history_append_only (fun q _ => Except.ok ("A-" ++ q)) (fun _ => Except.ok "")
    ⟨"m", "g", none⟩
    ⟨"deepset/roberta-base-squad2", "gpt2", some [⟨"x", "A-x"⟩, ⟨"y", "A-y"⟩]⟩
    "x" "y" "A-x" "A-y" "RoBERTa (deepset/roberta-base-squad2)" "GPT-2 (gpt2)"
    "Mathematics" "Percentages" 5 rfl (by decide) (by decide) rfl rfl rfl

end ExamPrep
